import Mathlib

/-!
Verification of the coordinate-to-country resolution core of the
`countries_visited` Home Assistant integration
(`custom_components/countries_visited/sensor.py` and `const.py`).

The Python source keeps process-wide mutable globals (`_COORDINATE_CACHE`,
`_CACHE_STATS`, `_reverse_geocoder`, `_last_api_call_time`, and the observer
callback list).  We embed them as an explicit state record and the async
function `get_country_from_coords` as a state-passing function; the
nondeterministic inputs of one call (the geocoder probe outcome, the
provider's response, the clock, and whether the outer `try` block raises)
are collected in a per-call environment record.
-/

namespace CountriesVisited

/-- Python `round(x, 2)` modelled on ℚ: scale by 100, round to an integer,
scale back.  (Python rounds ties to even while Mathlib's `round` rounds
ties up; no theorem below depends on the tie-breaking rule.) -/
def round2 (x : ℚ) : ℚ := (round (x * 100) : ℤ) / 100

/-- Python string comparison `a < b` on the underlying character lists:
lexicographic by code point, a strict prefix being smaller. -/
def pyStrLtAux : List Char → List Char → Bool
  | _, [] => false
  | [], _ :: _ => true
  | a :: as, b :: bs => if a = b then pyStrLtAux as bs else decide (a < b)

/-- Python `a <= b` on strings, as used by `list.sort()`. -/
def pyStrLe (a b : String) : Bool := ! pyStrLtAux b.data a.data

/-- The sorting relation of Python `list.sort()` on strings. -/
def pyLe (a b : String) : Prop := pyStrLe a b = true

instance : DecidableRel pyLe :=
  fun a b => inferInstanceAs (Decidable (pyStrLe a b = true))

/-- Python `str.upper()` (the codes handled here are ASCII, where simple
and full case mapping agree). -/
def pyUpper (s : String) : String := ⟨s.data.map Char.toUpper⟩

/-- The `_CACHE_STATS` global dict: four counters. -/
structure CacheStats where
  cache_hits : ℕ
  cache_misses : ℕ
  api_calls : ℕ
  total_requests : ℕ
  deriving Repr, DecidableEq

/-- The `_reverse_geocoder` global: `None` before the first probe, a live
geocoder instance, or `False` once initialization has failed. -/
inductive GeocoderSlot where
  | unset
  | available
  | unavailable
  deriving Repr, DecidableEq

/-- The process-wide mutable state of `sensor.py`:
`_COORDINATE_CACHE` (an insert-ordered dict keyed by rounded coordinates,
modelled as an association list whose most recent binding comes first),
`_CACHE_STATS`, `_reverse_geocoder`, `_last_api_call_time`, and a count of
`_notify_cache_stats_updated` invocations (each notification walks the
observer list; we record that the walk happened). -/
structure GeoState where
  coordinate_cache : List ((ℚ × ℚ) × Option String)
  cache_stats : CacheStats
  reverse_geocoder : GeocoderSlot
  last_api_call_time : ℚ
  notifications : ℕ
  deriving Repr, DecidableEq

/-- The state at process start: empty cache, zero counters, geocoder not
yet probed. -/
def initState : GeoState :=
  { coordinate_cache := []
    cache_stats := { cache_hits := 0, cache_misses := 0, api_calls := 0, total_requests := 0 }
    reverse_geocoder := .unset
    last_api_call_time := 0
    notifications := 0 }

/-- `cache_key in _COORDINATE_CACHE` / `_COORDINATE_CACHE[cache_key]`:
first binding for the key, if any. -/
def cacheLookup : List ((ℚ × ℚ) × Option String) → (ℚ × ℚ) → Option (Option String)
  | [], _ => none
  | (k, v) :: rest, key => if k = key then some v else cacheLookup rest key

/-- `_COORDINATE_CACHE[cache_key] = value`: a new binding shadowing any
older one. -/
def cacheStore (cache : List ((ℚ × ℚ) × Option String)) (key : ℚ × ℚ)
    (val : Option String) : List ((ℚ × ℚ) × Option String) :=
  (key, val) :: cache

/-- `len(_COORDINATE_CACHE)`: number of distinct keys bound. -/
def cacheSize (cache : List ((ℚ × ℚ) × Option String)) : ℕ :=
  (cache.map Prod.fst).dedup.length

/-- `_get_reverse_geocoder()`:  lazily initializes the geocoder.  `probeOk`
is whether the `geopy` import and construction succeed when the probe
actually runs; once the slot is set it is never re-probed.  Returns the new
slot together with the truthiness of the Python return value
(`_reverse_geocoder if _reverse_geocoder is not False else None`). -/
def get_reverse_geocoder (probeOk : Bool) : GeocoderSlot → GeocoderSlot × Bool
  | .unset => if probeOk then (.available, true) else (.unavailable, false)
  | .available => (.available, true)
  | .unavailable => (.unavailable, false)

/-- What the provider interaction inside the inner `reverse_geocode`
closure can observe:
* `located cc`: `geocoder.reverse` returned a truthy location with truthy
  `raw`; `cc` is `raw.get("address", {}).get("country_code", "")`;
* `noLocation`: the location or its `raw` payload was falsy;
* `timedOut` / `serviceError`: a `GeocoderTimedOut` / `GeocoderServiceError`
  exception;
* `unexpected`: any other exception inside the closure. -/
inductive ProviderResult where
  | located (countryCode : String)
  | noLocation
  | timedOut
  | serviceError
  | unexpected
  deriving Repr, DecidableEq

/-- The inner `reverse_geocode` closure of `get_country_from_coords`:
uppercase the provider's country-code field and return it only when it is
truthy (non-empty) and exactly two characters long; every error and every
other shape falls through to `None`. -/
def reverse_geocode : ProviderResult → Option String
  | .located cc =>
      let country_code := pyUpper cc
      if country_code ≠ "" ∧ country_code.length = 2 then some country_code else none
  | .noLocation => none
  | .timedOut => none
  | .serviceError => none
  | .unexpected => none

/-- The nondeterministic inputs of one `get_country_from_coords` call:
whether a geocoder probe (if one runs) succeeds, what the provider answers,
whether the outer `try` block raises (e.g. during the rate-limit sleep),
and the value of `time.time()` when the call stamp is written. -/
structure CallEnv where
  probeOk : Bool
  provider : ProviderResult
  outerRaises : Bool
  now : ℚ
  deriving Repr, DecidableEq

/-- `_notify_cache_stats_updated(hass)`: observer exceptions are swallowed,
so the only effect visible to this model is that a notification round ran. -/
def notifyObservers (s : GeoState) : GeoState :=
  { s with notifications := s.notifications + 1 }

/-- `get_country_from_coords(hass, lat, lon)` as a state-passing function.

Faithful to the source path by path:
1. compute the cache key by rounding both coordinates to 2 decimals;
2. `total_requests += 1`;
3. on a cache hit: `cache_hits += 1`, notify, return the cached value;
4. on a miss: `cache_misses += 1`; if the geocoder is unavailable, notify
   and return `None` (nothing stored, no `api_calls` bump);
5. otherwise, if the outer `try` raises: `api_calls += 1`, store `None`,
   notify, return `None`;
6. otherwise stamp `_last_api_call_time`, run the provider closure,
   `api_calls += 1`, store the result (even `None`), notify, return it. -/
def get_country_from_coords (env : CallEnv) (lat lon : ℚ) (s : GeoState) :
    Option String × GeoState :=
  let cache_key := (round2 lat, round2 lon)
  let s1 : GeoState :=
    { s with cache_stats := { s.cache_stats with
        total_requests := s.cache_stats.total_requests + 1 } }
  match cacheLookup s1.coordinate_cache cache_key with
  | some cached_result =>
      let s2 : GeoState :=
        { s1 with cache_stats := { s1.cache_stats with
            cache_hits := s1.cache_stats.cache_hits + 1 } }
      (cached_result, notifyObservers s2)
  | none =>
      let s2 : GeoState :=
        { s1 with cache_stats := { s1.cache_stats with
            cache_misses := s1.cache_stats.cache_misses + 1 } }
      let probe := get_reverse_geocoder env.probeOk s2.reverse_geocoder
      let s3 : GeoState := { s2 with reverse_geocoder := probe.1 }
      if probe.2 = false then
        (none, notifyObservers s3)
      else if env.outerRaises then
        let s4 : GeoState :=
          { s3 with
            cache_stats := { s3.cache_stats with
              api_calls := s3.cache_stats.api_calls + 1 }
            coordinate_cache := cacheStore s3.coordinate_cache cache_key none }
        (none, notifyObservers s4)
      else
        let s4 : GeoState := { s3 with last_api_call_time := env.now }
        let country_code := reverse_geocode env.provider
        let s5 : GeoState :=
          { s4 with
            cache_stats := { s4.cache_stats with
              api_calls := s4.cache_stats.api_calls + 1 }
            coordinate_cache := cacheStore s4.coordinate_cache cache_key country_code }
        (country_code, notifyObservers s5)

/-- States reachable from process start by any sequence of
`get_country_from_coords` calls. -/
inductive Reachable : GeoState → Prop where
  | init : Reachable initState
  | step (env : CallEnv) (lat lon : ℚ) {s : GeoState} :
      Reachable s → Reachable (get_country_from_coords env lat lon s).2

/-- The dict returned by `get_cache_stats()`. -/
structure StatsSnapshot where
  cache_size : ℕ
  cache_hits : ℕ
  cache_misses : ℕ
  api_calls : ℕ
  total_requests : ℕ
  hit_rate : ℚ
  deriving Repr, DecidableEq

/-- `get_cache_stats()`: a snapshot of the counters plus the derived hit
rate `round(cache_hits / total_requests * 100, 2)` (or `0.0` when
`total_requests` is zero). -/
def get_cache_stats (s : GeoState) : StatsSnapshot :=
  let total_requests := s.cache_stats.total_requests
  let cache_hits := s.cache_stats.cache_hits
  let hit_rate : ℚ :=
    if total_requests > 0 then (cache_hits : ℚ) / (total_requests : ℚ) * 100 else 0
  { cache_size := cacheSize s.coordinate_cache
    cache_hits := cache_hits
    cache_misses := s.cache_stats.cache_misses
    api_calls := s.cache_stats.api_calls
    total_requests := total_requests
    hit_rate := round2 hit_rate }

/-- The `ISO_TO_NAME` dict of `const.py`, verbatim (its last two entries
are reversed in the source and are embedded as written). -/
def ISO_TO_NAME : List (String × String) :=
  [("US", "United States"), ("GB", "United Kingdom"), ("DE", "Germany"),
   ("FR", "France"), ("ES", "Spain"), ("IT", "Italy"), ("RU", "Russia"),
   ("CN", "China"), ("JP", "Japan"), ("AU", "Australia"), ("CA", "Canada"),
   ("BR", "Brazil"), ("MX", "Mexico"), ("IN", "India"), ("KR", "South Korea"),
   ("NL", "Netherlands"), ("BE", "Belgium"), ("CH", "Switzerland"),
   ("AT", "Austria"), ("PT", "Portugal"), ("SE", "Sweden"), ("NO", "Norway"),
   ("FI", "Finland"), ("DK", "Denmark"), ("PL", "Poland"),
   ("CZ", "Czech Republic"), ("HU", "Hungary"), ("GR", "Greece"),
   ("TR", "Turkey"), ("EG", "Egypt"), ("ZA", "South Africa"),
   ("AE", "United Arab Emirates"), ("TH", "Thailand"), ("SG", "Singapore"),
   ("MY", "Malaysia"), ("ID", "Indonesia"), ("PH", "Philippines"),
   ("VN", "Vietnam"), ("NZ", "New Zealand"), ("IL", "Israel"),
   ("SA", "Saudi Arabia"), ("Qatar", "QA"), ("KU", "KW")]

/-- `ISO_TO_NAME.get(code, code)`. -/
def isoName (code : String) : String :=
  match ISO_TO_NAME.find? (fun p => p.1 = code) with
  | some p => p.2
  | none => code

/-- `sorted list(set(xs))`: Python deduplicates via `set` (arbitrary
order) and the caller then sorts, so the result is the unique
lexicographically sorted duplicate-free list. -/
def sortedDedup (xs : List String) : List String :=
  List.insertionSort pyLe xs.dedup

/-- What the aggregator publishes on the sensor entity:
`_attr_native_value` and the `_attr_extra_state_attributes` fields the
claims are about. -/
structure SensorData where
  native_value : Option ℕ
  visited_countries : Option (List String)
  visited_countries_names : Option (List String)
  detected_from_history : Option (List String)
  manual_countries : Option (List String)
  current_country : Option (Option String)
  deriving Repr, DecidableEq

/-- A fresh `CountriesVisitedSensor`: no value yet, empty attributes dict. -/
def initSensor : SensorData :=
  { native_value := none, visited_countries := none,
    visited_countries_names := none, detected_from_history := none,
    manual_countries := none, current_country := none }

/-- The state record the aggregator reads for the configured person
entity: its `visited_countries` attribute (defaulting to `[]`). -/
structure PersonState where
  visited_countries : List String
  deriving Repr, DecidableEq

/-- The pure merge at the heart of `CountriesVisitedSensor.async_update`:
`visited_countries = sorted(list(set(manual + history)))`, then — when the
resolved current country is truthy and not yet listed — append it and sort
again.  Returns the final visited list. -/
def mergeVisited (manual history : List String) (current : Option String) :
    List String :=
  let visited := sortedDedup (manual ++ history)
  match current with
  | none => visited
  | some c =>
      if c ≠ "" then
        if c ∉ visited then List.insertionSort pyLe (visited ++ [c])
        else visited
      else visited

/-- `CountriesVisitedSensor.async_update`, with the external collaborators
passed as inputs: `person` is `hass.states.get(person_entity)` (absent
record ⇒ early `return`, nothing touched), `history` the codes resolved by
`_detect_countries_from_history`, and `current` the code resolved from the
current coordinates by `_get_current_country`. -/
def async_update (person : Option PersonState) (history : List String)
    (current : Option String) (sensor : SensorData) : SensorData :=
  match person with
  | none => sensor
  | some st =>
      let manual_countries := st.visited_countries
      let visited_countries := mergeVisited manual_countries history current
      let country_names := visited_countries.map isoName
      { native_value := some visited_countries.length
        visited_countries := some visited_countries
        visited_countries_names := some country_names
        detected_from_history := some history
        manual_countries := some manual_countries
        current_country := some current }

/-- The coordinate-selection step of
`CountriesVisitedSensor._detect_countries_from_history`:
`unique_coords = list(set(coordinates_to_resolve))`, truncated to the first
`max_coords = 100` entries when longer. -/
def selectHistoryCoords (coordinates_to_resolve : List (ℚ × ℚ)) :
    List (ℚ × ℚ) :=
  let unique_coords := coordinates_to_resolve.dedup
  let max_coords := 100
  if unique_coords.length > max_coords then unique_coords.take max_coords
  else unique_coords

/-! ### Order-theoretic facts about the Python string comparison -/

theorem pyStrLtAux_irrefl : ∀ x, pyStrLtAux x x = false
  | [] => rfl
  | a :: as => by simp [pyStrLtAux, pyStrLtAux_irrefl as]

theorem pyStrLtAux_trans : ∀ x y z, pyStrLtAux x y = true → pyStrLtAux y z = true →
    pyStrLtAux x z = true
  | _, y, [] => by intro _ h2; simp [pyStrLtAux] at h2
  | [], _, _ :: _ => by intro _ _; rfl
  | _ :: _, [], _ :: _ => by intro h1 _; simp [pyStrLtAux] at h1
  | a :: as, b :: bs, c :: cs => by
      intro h1 h2
      simp only [pyStrLtAux] at h1 h2 ⊢
      by_cases hab : a = b
      · subst hab
        rw [if_pos rfl] at h1
        by_cases hac : a = c
        · subst hac
          rw [if_pos rfl] at h2 ⊢
          exact pyStrLtAux_trans as bs cs h1 h2
        · rw [if_neg hac] at h2 ⊢
          exact h2
      · rw [if_neg hab] at h1
        have hab' : a < b := of_decide_eq_true h1
        by_cases hbc : b = c
        · subst hbc
          rw [if_neg (ne_of_lt hab')]
          exact decide_eq_true hab'
        · rw [if_neg hbc] at h2
          have hac' : a < c := lt_trans hab' (of_decide_eq_true h2)
          rw [if_neg (ne_of_lt hac')]
          exact decide_eq_true hac'

theorem pyStrLtAux_eq_of_both_not_lt : ∀ x y, pyStrLtAux x y = false →
    pyStrLtAux y x = false → x = y
  | [], [] => by intro _ _; rfl
  | [], _ :: _ => by intro h1 _; simp [pyStrLtAux] at h1
  | _ :: _, [] => by intro _ h2; simp [pyStrLtAux] at h2
  | a :: as, b :: bs => by
      intro h1 h2
      simp only [pyStrLtAux] at h1 h2
      by_cases hab : a = b
      · subst hab
        rw [if_pos rfl] at h1 h2
        rw [pyStrLtAux_eq_of_both_not_lt as bs h1 h2]
      · rw [if_neg hab] at h1
        rw [if_neg (Ne.symm hab)] at h2
        rcases lt_or_gt_of_ne hab with h | h
        · exact absurd (decide_eq_true h) (by simp [h1])
        · exact absurd (decide_eq_true h) (by simp [h2])

instance : IsTrans String pyLe where
  trans a b c hab hbc := by
    unfold pyLe pyStrLe at hab hbc ⊢
    rw [Bool.not_eq_true'] at hab hbc ⊢
    by_contra h
    rw [Bool.not_eq_false] at h
    cases hbc' : pyStrLtAux b.data c.data with
    | true => exact absurd (pyStrLtAux_trans _ _ _ hbc' h) (by simp [hab])
    | false =>
        rw [pyStrLtAux_eq_of_both_not_lt _ _ hbc hbc'] at h
        exact absurd h (by simp [hab])

instance : IsTotal String pyLe where
  total a b := by
    unfold pyLe pyStrLe
    rw [Bool.not_eq_true', Bool.not_eq_true']
    cases hba : pyStrLtAux b.data a.data with
    | false => exact Or.inl rfl
    | true =>
        refine Or.inr ?_
        cases hab : pyStrLtAux a.data b.data with
        | false => rfl
        | true =>
            have := pyStrLtAux_trans _ _ _ hab hba
            rw [pyStrLtAux_irrefl] at this
            exact absurd this (by simp)

/-! ### Behaviour of one resolution call -/

theorem cacheLookup_store_self (cache : List ((ℚ × ℚ) × Option String))
    (key : ℚ × ℚ) (val : Option String) :
    cacheLookup (cacheStore cache key val) key = some val := by
  simp [cacheLookup, cacheStore]

theorem get_reverse_geocoder_cases (probeOk : Bool) (g : GeocoderSlot) :
    get_reverse_geocoder probeOk g = (.available, true) ∨
    get_reverse_geocoder probeOk g = (.unavailable, false) := by
  cases g <;> cases probeOk <;> simp [get_reverse_geocoder]

/-- One `get_country_from_coords` call does exactly one of three things:
serve a cache hit, fail a miss with the gateway unavailable, or resolve a
miss through the gateway and store the result. -/
theorem call_cases (env : CallEnv) (lat lon : ℚ) (s : GeoState) :
    (∃ v, cacheLookup s.coordinate_cache (round2 lat, round2 lon) = some v ∧
      get_country_from_coords env lat lon s =
        (v, { s with
          cache_stats := { s.cache_stats with
            total_requests := s.cache_stats.total_requests + 1
            cache_hits := s.cache_stats.cache_hits + 1 }
          notifications := s.notifications + 1 })) ∨
    (cacheLookup s.coordinate_cache (round2 lat, round2 lon) = none ∧
      get_reverse_geocoder env.probeOk s.reverse_geocoder = (.unavailable, false) ∧
      get_country_from_coords env lat lon s =
        (none, { s with
          cache_stats := { s.cache_stats with
            total_requests := s.cache_stats.total_requests + 1
            cache_misses := s.cache_stats.cache_misses + 1 }
          reverse_geocoder := .unavailable
          notifications := s.notifications + 1 })) ∨
    (∃ v t, cacheLookup s.coordinate_cache (round2 lat, round2 lon) = none ∧
      get_reverse_geocoder env.probeOk s.reverse_geocoder = (.available, true) ∧
      (v = none ∨ v = reverse_geocode env.provider) ∧
      get_country_from_coords env lat lon s =
        (v, { s with
          coordinate_cache := cacheStore s.coordinate_cache (round2 lat, round2 lon) v
          cache_stats := { s.cache_stats with
            total_requests := s.cache_stats.total_requests + 1
            cache_misses := s.cache_stats.cache_misses + 1
            api_calls := s.cache_stats.api_calls + 1 }
          reverse_geocoder := .available
          last_api_call_time := t
          notifications := s.notifications + 1 })) := by
  cases h : cacheLookup s.coordinate_cache (round2 lat, round2 lon) with
  | some v =>
      refine Or.inl ⟨v, rfl, ?_⟩
      simp [get_country_from_coords, h, notifyObservers]
  | none =>
      rcases get_reverse_geocoder_cases env.probeOk s.reverse_geocoder with hg | hg
      · refine Or.inr (Or.inr ?_)
        by_cases ho : env.outerRaises
        · refine ⟨none, s.last_api_call_time, rfl, hg, Or.inl rfl, ?_⟩
          simp [get_country_from_coords, h, hg, ho, notifyObservers]
        · refine ⟨reverse_geocode env.provider, env.now, rfl, hg, Or.inr rfl, ?_⟩
          simp [get_country_from_coords, h, hg, ho, notifyObservers]
      · refine Or.inr (Or.inl ⟨rfl, hg, ?_⟩)
        simp [get_country_from_coords, h, hg, notifyObservers]

/-- A call whose key is cached: counted as a hit, nothing else changes. -/
theorem call_hit (env : CallEnv) (lat lon : ℚ) (s : GeoState) (v : Option String)
    (hv : cacheLookup s.coordinate_cache (round2 lat, round2 lon) = some v) :
    get_country_from_coords env lat lon s =
      (v, { s with
        cache_stats := { s.cache_stats with
          total_requests := s.cache_stats.total_requests + 1
          cache_hits := s.cache_stats.cache_hits + 1 }
        notifications := s.notifications + 1 }) := by
  simp [get_country_from_coords, hv, notifyObservers]

/-- A call whose key is not cached while the geocoder is unavailable:
counted as a miss, `None` returned, nothing stored. -/
theorem call_miss_unavailable (env : CallEnv) (lat lon : ℚ) (s : GeoState)
    (hm : cacheLookup s.coordinate_cache (round2 lat, round2 lon) = none)
    (hg : s.reverse_geocoder = .unavailable) :
    get_country_from_coords env lat lon s =
      (none, { s with
        cache_stats := { s.cache_stats with
          total_requests := s.cache_stats.total_requests + 1
          cache_misses := s.cache_stats.cache_misses + 1 }
        reverse_geocoder := .unavailable
        notifications := s.notifications + 1 }) := by
  simp [get_country_from_coords, hm, hg, get_reverse_geocoder, notifyObservers]

/-- Two consecutive calls whose raw coordinates round to the same cache
key: the second call returns the first call's value and issues no gateway
call; it is a cache hit exactly when the first call left the key cached. -/
theorem second_call_same_key (s : GeoState) (env1 env2 : CallEnv)
    (lat1 lon1 lat2 lon2 : ℚ)
    (hlat : round2 lat2 = round2 lat1) (hlon : round2 lon2 = round2 lon1) :
    (get_country_from_coords env2 lat2 lon2
        (get_country_from_coords env1 lat1 lon1 s).2).1 =
      (get_country_from_coords env1 lat1 lon1 s).1 ∧
    (get_country_from_coords env2 lat2 lon2
        (get_country_from_coords env1 lat1 lon1 s).2).2.cache_stats.api_calls =
      (get_country_from_coords env1 lat1 lon1 s).2.cache_stats.api_calls ∧
    (cacheLookup (get_country_from_coords env1 lat1 lon1 s).2.coordinate_cache
        (round2 lat2, round2 lon2) ≠ none →
      (get_country_from_coords env2 lat2 lon2
          (get_country_from_coords env1 lat1 lon1 s).2).2.cache_stats.cache_hits =
        (get_country_from_coords env1 lat1 lon1 s).2.cache_stats.cache_hits + 1 ∧
      (get_country_from_coords env2 lat2 lon2
          (get_country_from_coords env1 lat1 lon1 s).2).2.cache_stats.cache_misses =
        (get_country_from_coords env1 lat1 lon1 s).2.cache_stats.cache_misses) ∧
    (cacheLookup (get_country_from_coords env1 lat1 lon1 s).2.coordinate_cache
        (round2 lat2, round2 lon2) = none →
      (get_country_from_coords env2 lat2 lon2
          (get_country_from_coords env1 lat1 lon1 s).2).2.cache_stats.cache_hits =
        (get_country_from_coords env1 lat1 lon1 s).2.cache_stats.cache_hits ∧
      (get_country_from_coords env2 lat2 lon2
          (get_country_from_coords env1 lat1 lon1 s).2).2.cache_stats.cache_misses =
        (get_country_from_coords env1 lat1 lon1 s).2.cache_stats.cache_misses + 1 ∧
      (get_country_from_coords env1 lat1 lon1 s).1 = none) := by
  rcases call_cases env1 lat1 lon1 s with
    ⟨v, hv, heq1⟩ | ⟨hnone, hgeo, heq1⟩ | ⟨v, t, hnone, hgeo, hvv, heq1⟩
  · -- first call is a hit: the cache is untouched, the second call hits too
    have hv2 : cacheLookup (get_country_from_coords env1 lat1 lon1 s).2.coordinate_cache
        (round2 lat2, round2 lon2) = some v := by
      rw [heq1, hlat, hlon]; simpa using hv
    have heq2 := call_hit env2 lat2 lon2 _ v hv2
    rw [heq2, heq1]
    rw [heq1] at hv2
    refine ⟨by simp, by simp, fun _ => by simp, fun h => ?_⟩
    rw [hv2] at h
    simp at h
  · -- first call is a miss with the geocoder unavailable: nothing was
    -- stored and the geocoder stays latched off, so the second call is
    -- another miss returning none
    have hm2 : cacheLookup (get_country_from_coords env1 lat1 lon1 s).2.coordinate_cache
        (round2 lat2, round2 lon2) = none := by
      rw [heq1, hlat, hlon]; simpa using hnone
    have hg2 : (get_country_from_coords env1 lat1 lon1 s).2.reverse_geocoder =
        .unavailable := by rw [heq1]
    have heq2 := call_miss_unavailable env2 lat2 lon2 _ hm2 hg2
    rw [heq2, heq1]
    rw [heq1] at hm2
    refine ⟨by simp, by simp, fun h => absurd hm2 h, fun _ => by simp⟩
  · -- first call went to the gateway and stored its result: the second
    -- call hits the stored entry
    have hv2 : cacheLookup (get_country_from_coords env1 lat1 lon1 s).2.coordinate_cache
        (round2 lat2, round2 lon2) = some v := by
      rw [heq1, hlat, hlon]
      simpa using cacheLookup_store_self s.coordinate_cache (round2 lat1, round2 lon1) v
    have heq2 := call_hit env2 lat2 lon2 _ v hv2
    rw [heq2, heq1]
    rw [heq1] at hv2
    refine ⟨by simp, by simp, fun _ => by simp, fun h => ?_⟩
    rw [hv2] at h
    simp at h

/-! ### Properties of the aggregator merge -/

theorem mem_sortedDedup (xs : List String) (a : String) :
    a ∈ sortedDedup xs ↔ a ∈ xs := by
  simp [sortedDedup]

theorem nodup_sortedDedup (xs : List String) : (sortedDedup xs).Nodup :=
  ((List.perm_insertionSort pyLe xs.dedup).nodup_iff).mpr xs.nodup_dedup

theorem sorted_sortedDedup (xs : List String) : (sortedDedup xs).Sorted pyLe :=
  List.sorted_insertionSort pyLe xs.dedup

theorem mem_mergeVisited (manual history : List String) (current : Option String)
    (hc : current ≠ some "") (a : String) :
    a ∈ mergeVisited manual history current ↔
      a ∈ manual ∨ a ∈ history ∨ current = some a := by
  cases current with
  | none => simp [mergeVisited, mem_sortedDedup]
  | some c =>
      have hne : c ≠ "" := fun h => hc (by rw [h])
      simp only [mergeVisited]
      rw [if_pos hne]
      by_cases hmem : c ∈ sortedDedup (manual ++ history)
      · rw [if_neg (by simpa using hmem)]
        rw [mem_sortedDedup] at hmem ⊢
        simp only [List.mem_append, Option.some.injEq] at hmem ⊢
        constructor
        · rintro (h | h)
          · exact Or.inl h
          · exact Or.inr (Or.inl h)
        · rintro (h | h | h)
          · exact Or.inl h
          · exact Or.inr h
          · rw [← h]
            exact hmem
      · rw [if_pos hmem]
        rw [List.mem_insertionSort, List.mem_append, mem_sortedDedup]
        simp only [List.mem_append, List.mem_singleton, Option.some.injEq]
        constructor
        · rintro ((h | h) | h)
          · exact Or.inl h
          · exact Or.inr (Or.inl h)
          · exact Or.inr (Or.inr h.symm)
        · rintro (h | h | h)
          · exact Or.inl (Or.inl h)
          · exact Or.inl (Or.inr h)
          · exact Or.inr h.symm

theorem nodup_mergeVisited (manual history : List String) (current : Option String) :
    (mergeVisited manual history current).Nodup := by
  cases current with
  | none => exact nodup_sortedDedup _
  | some c =>
      simp only [mergeVisited]
      by_cases hne : c ≠ ""
      · rw [if_pos hne]
        by_cases hmem : c ∈ sortedDedup (manual ++ history)
        · rw [if_neg (by simpa using hmem)]
          exact nodup_sortedDedup _
        · rw [if_pos hmem]
          refine ((List.perm_insertionSort pyLe _).nodup_iff).mpr ?_
          refine List.Nodup.append (nodup_sortedDedup _) (List.nodup_singleton c) ?_
          intro a ha hb
          rw [List.mem_singleton] at hb
          exact hmem (hb ▸ ha)
      · rw [if_neg hne]
        exact nodup_sortedDedup _

theorem sorted_mergeVisited (manual history : List String) (current : Option String) :
    (mergeVisited manual history current).Sorted pyLe := by
  cases current with
  | none => exact sorted_sortedDedup _
  | some c =>
      simp only [mergeVisited]
      by_cases hne : c ≠ ""
      · rw [if_pos hne]
        by_cases hmem : c ∈ sortedDedup (manual ++ history)
        · rw [if_neg (by simpa using hmem)]
          exact sorted_sortedDedup _
        · rw [if_pos hmem]
          exact List.sorted_insertionSort pyLe _
      · rw [if_neg hne]
        exact sorted_sortedDedup _

/-! ### Claims -/

/-- C1: for every sequence of `get_country_from_coords` calls starting
from the initial statistics state, after each call
`total_requests = cache_hits + cache_misses` and
`api_calls ≤ cache_misses`. -/
theorem stats_conservation (s : GeoState) (h : Reachable s) :
    s.cache_stats.total_requests =
      s.cache_stats.cache_hits + s.cache_stats.cache_misses ∧
    s.cache_stats.api_calls ≤ s.cache_stats.cache_misses := by
  induction h with
  | init => exact ⟨rfl, Nat.le_refl 0⟩
  | step env lat lon hs ih =>
      rcases call_cases env lat lon _ with
        ⟨v, _, heq⟩ | ⟨_, _, heq⟩ | ⟨v, t, _, _, _, heq⟩ <;>
        rw [heq] <;> simp <;> omega

/-- Witness for C1 at the initial state. -/
theorem stats_conservation_witness :
    initState.cache_stats.total_requests =
      initState.cache_stats.cache_hits + initState.cache_stats.cache_misses ∧
    initState.cache_stats.api_calls ≤ initState.cache_stats.cache_misses :=
  stats_conservation initState Reachable.init

/-- C6: on a miss with the gateway disabled, the call increments
`total_requests` and `cache_misses`, notifies observers, and returns
`None` with no further state change: `api_calls` is untouched and nothing
is stored in the cache. -/
theorem miss_gateway_disabled (env : CallEnv) (lat lon : ℚ) (s : GeoState)
    (hmiss : cacheLookup s.coordinate_cache (round2 lat, round2 lon) = none)
    (hgeo : (get_reverse_geocoder env.probeOk s.reverse_geocoder).2 = false) :
    (get_country_from_coords env lat lon s).1 = none ∧
    (get_country_from_coords env lat lon s).2.cache_stats.total_requests =
      s.cache_stats.total_requests + 1 ∧
    (get_country_from_coords env lat lon s).2.cache_stats.cache_misses =
      s.cache_stats.cache_misses + 1 ∧
    (get_country_from_coords env lat lon s).2.cache_stats.cache_hits =
      s.cache_stats.cache_hits ∧
    (get_country_from_coords env lat lon s).2.cache_stats.api_calls =
      s.cache_stats.api_calls ∧
    (get_country_from_coords env lat lon s).2.coordinate_cache =
      s.coordinate_cache ∧
    (get_country_from_coords env lat lon s).2.notifications =
      s.notifications + 1 := by
  rcases call_cases env lat lon s with
    ⟨v, hv, heq⟩ | ⟨_, hg, heq⟩ | ⟨v, t, _, hg, _, heq⟩
  · rw [hmiss] at hv
    exact absurd hv (by simp)
  · rw [heq]
    refine ⟨rfl, ?_, ?_, ?_, ?_, ?_, ?_⟩ <;> simp
  · rw [hg] at hgeo
    simp at hgeo

/-- Witness for C6: the first call on an uncached key with the geocoder
probe failing. -/
theorem miss_gateway_disabled_witness :
    (get_country_from_coords ⟨false, ProviderResult.unexpected, false, 0⟩
      0 0 initState).1 = none ∧
    (get_country_from_coords ⟨false, ProviderResult.unexpected, false, 0⟩
      0 0 initState).2.cache_stats.cache_misses =
        initState.cache_stats.cache_misses + 1 ∧
    (get_country_from_coords ⟨false, ProviderResult.unexpected, false, 0⟩
      0 0 initState).2.cache_stats.api_calls =
        initState.cache_stats.api_calls ∧
    (get_country_from_coords ⟨false, ProviderResult.unexpected, false, 0⟩
      0 0 initState).2.coordinate_cache = initState.coordinate_cache := by
  have h := miss_gateway_disabled ⟨false, ProviderResult.unexpected, false, 0⟩
    0 0 initState rfl rfl
  exact ⟨h.1, h.2.2.1, h.2.2.2.2.1, h.2.2.2.2.2.1⟩

/-- C7: the gateway returns a code exactly when the provider returned a
located response whose uppercased country-code field has length 2; the
returned code is that uppercased field; every error shape yields `None`. -/
theorem gateway_result_shape (r : ProviderResult) :
    ((reverse_geocode r).isSome ↔
      ∃ cc, r = ProviderResult.located cc ∧ (pyUpper cc).length = 2) ∧
    (∀ code, reverse_geocode r = some code →
      ∃ cc, r = ProviderResult.located cc ∧ code = pyUpper cc ∧
        code.length = 2) := by
  cases r with
  | located cc =>
      by_cases hlen : (pyUpper cc).length = 2
      · have hne : pyUpper cc ≠ "" := by
          intro h
          rw [h] at hlen
          exact absurd hlen (by decide)
        have hval : reverse_geocode (ProviderResult.located cc) =
            some (pyUpper cc) := by
          simp [reverse_geocode, hne, hlen]
        rw [hval]
        constructor
        · simp only [Option.isSome_some, true_iff]
          exact ⟨cc, rfl, hlen⟩
        · intro code h
          rw [Option.some.injEq] at h
          exact ⟨cc, rfl, h.symm, h ▸ hlen⟩
      · have hval : reverse_geocode (ProviderResult.located cc) = none := by
          simp [reverse_geocode, hlen]
        rw [hval]
        constructor
        · simp only [Option.isSome_none, Bool.false_eq_true, false_iff]
          rintro ⟨cc2, hcc, hl⟩
          rw [ProviderResult.located.injEq] at hcc
          exact hlen (hcc ▸ hl)
        · intro code h
          simp at h
  | noLocation => simp [reverse_geocode]
  | timedOut => simp [reverse_geocode]
  | serviceError => simp [reverse_geocode]
  | unexpected => simp [reverse_geocode]

/-- Witness for C7 on concrete provider responses. -/
theorem gateway_result_shape_witness :
    reverse_geocode (ProviderResult.located "de") = some "DE" ∧
    reverse_geocode (ProviderResult.located "deu") = none ∧
    reverse_geocode ProviderResult.timedOut = none ∧
    ∃ cc, ProviderResult.located "de" = ProviderResult.located cc ∧
      "DE" = pyUpper cc ∧ ("DE" : String).length = 2 := by
  refine ⟨by decide, by decide, rfl, ?_⟩
  exact (gateway_result_shape (ProviderResult.located "de")).2 "DE" (by decide)

/-- C8: one aggregation pass submits at most 100 coordinates for
resolution; with more than 100 distinct coordinates after deduplication,
exactly 100 are submitted and the excess is skipped. -/
theorem history_cap (coordinates_to_resolve : List (ℚ × ℚ)) :
    (selectHistoryCoords coordinates_to_resolve).length ≤ 100 ∧
    (100 < coordinates_to_resolve.dedup.length →
      (selectHistoryCoords coordinates_to_resolve).length = 100) := by
  unfold selectHistoryCoords
  by_cases h : coordinates_to_resolve.dedup.length > 100
  · rw [if_pos h]
    simp only [List.length_take]
    exact ⟨by omega, fun _ => by omega⟩
  · rw [if_neg h]
    exact ⟨by omega, fun hh => absurd hh h⟩

/-- Witness for C8 on 150 distinct coordinates. -/
theorem history_cap_witness :
    100 < ((List.range 150).map (fun (i : ℕ) => ((i : ℚ), (0 : ℚ)))).dedup.length ∧
    (selectHistoryCoords
      ((List.range 150).map (fun (i : ℕ) => ((i : ℚ), (0 : ℚ))))).length = 100 := by
  have hinj : Function.Injective (fun i : ℕ => ((i : ℚ), (0 : ℚ))) := by
    intro a b hab
    simpa using congrArg Prod.fst hab
  have hnd : ((List.range 150).map (fun (i : ℕ) => ((i : ℚ), (0 : ℚ)))).Nodup :=
    List.Nodup.map hinj (List.nodup_range 150)
  have hlen :
      ((List.range 150).map (fun (i : ℕ) => ((i : ℚ), (0 : ℚ)))).dedup.length = 150 := by
    rw [List.dedup_eq_self.mpr hnd]
    rw [List.length_map, List.length_range]
  exact ⟨by rw [hlen]; omega, (history_cap _).2 (by rw [hlen]; omega)⟩

/-- C9 (amended): the snapshot's hit rate is hits divided by total times
100 rounded to two decimal places when total is positive, and 0 when
total is zero. -/
theorem hit_rate_amended (s : GeoState) :
    (get_cache_stats s).hit_rate =
      if s.cache_stats.total_requests > 0 then
        round2 ((s.cache_stats.cache_hits : ℚ) /
          (s.cache_stats.total_requests : ℚ) * 100)
      else 0 := by
  simp only [get_cache_stats]
  by_cases h : s.cache_stats.total_requests > 0
  · rw [if_pos h, if_pos h]
  · rw [if_neg h, if_neg h]
    simp [round2]

/-- C9 counterexample: with 1 hit in 3 requests the snapshot reports the
rounded value 33.33, not hits/total × 100 = 100/3. -/
theorem hit_rate_counterexample :
    (get_cache_stats { initState with
      cache_stats := { cache_hits := 1, cache_misses := 2, api_calls := 2,
                       total_requests := 3 } }).hit_rate = 3333 / 100 ∧
    ((3333 : ℚ) / 100) ≠ (1 : ℚ) / 3 * 100 := by
  constructor
  · simp only [get_cache_stats, round2, initState]
    norm_num [round_eq]
  · norm_num

/-- C5 (amended): when no state record exists for the configured person
entity, the update raises nothing and returns with the sensor's previously
published value and attributes unchanged (rather than publishing an empty
result). -/
theorem missing_person_amended (history : List String) (current : Option String)
    (sensor : SensorData) :
    async_update none history current sensor = sensor := rfl

/-- C5 counterexample: a sensor that previously published three countries
keeps count 3 and its non-empty list after an update that finds no person
state; it does not publish an empty result set. -/
theorem missing_person_counterexample :
    let prior : SensorData :=
      { native_value := some 3
        visited_countries := some ["DE", "FR", "US"]
        visited_countries_names := some ["Germany", "France", "United States"]
        detected_from_history := some ["US"]
        manual_countries := some ["FR"]
        current_country := some (some "DE") }
    async_update (some ⟨["FR"]⟩) ["US"] (some "DE") initSensor = prior ∧
    async_update none ["US"] (some "DE") prior = prior ∧
    (async_update none ["US"] (some "DE") prior).native_value ≠ some 0 ∧
    (async_update none ["US"] (some "DE") prior).visited_countries ≠ some [] := by
  exact ⟨by decide, rfl, by decide, by decide⟩

/-- C10: the missing-person early return leaves every published field of
the sensor exactly as it was. -/
theorem missing_person_frame (history : List String) (current : Option String)
    (sensor : SensorData) :
    (async_update none history current sensor).native_value =
      sensor.native_value ∧
    (async_update none history current sensor).visited_countries =
      sensor.visited_countries ∧
    (async_update none history current sensor).visited_countries_names =
      sensor.visited_countries_names ∧
    (async_update none history current sensor).detected_from_history =
      sensor.detected_from_history ∧
    (async_update none history current sensor).manual_countries =
      sensor.manual_countries ∧
    (async_update none history current sensor).current_country =
      sensor.current_country :=
  ⟨rfl, rfl, rfl, rfl, rfl, rfl⟩

/-- C2 (amended): calling `get_country_from_coords` twice with the same
coordinates returns the same value both times and the second call never
bumps `api_calls`; the second call is counted as a cache hit whenever the
first call left the key cached, while on an uncached key with the geocoder
unavailable both calls return `None` and the second is counted as another
miss. -/
theorem idempotence_amended (s : GeoState) (env1 env2 : CallEnv) (lat lon : ℚ) :
    (get_country_from_coords env2 lat lon
        (get_country_from_coords env1 lat lon s).2).1 =
      (get_country_from_coords env1 lat lon s).1 ∧
    (get_country_from_coords env2 lat lon
        (get_country_from_coords env1 lat lon s).2).2.cache_stats.api_calls =
      (get_country_from_coords env1 lat lon s).2.cache_stats.api_calls ∧
    (cacheLookup (get_country_from_coords env1 lat lon s).2.coordinate_cache
        (round2 lat, round2 lon) ≠ none →
      (get_country_from_coords env2 lat lon
          (get_country_from_coords env1 lat lon s).2).2.cache_stats.cache_hits =
        (get_country_from_coords env1 lat lon s).2.cache_stats.cache_hits + 1 ∧
      (get_country_from_coords env2 lat lon
          (get_country_from_coords env1 lat lon s).2).2.cache_stats.cache_misses =
        (get_country_from_coords env1 lat lon s).2.cache_stats.cache_misses) ∧
    (cacheLookup (get_country_from_coords env1 lat lon s).2.coordinate_cache
        (round2 lat, round2 lon) = none →
      (get_country_from_coords env2 lat lon
          (get_country_from_coords env1 lat lon s).2).2.cache_stats.cache_hits =
        (get_country_from_coords env1 lat lon s).2.cache_stats.cache_hits ∧
      (get_country_from_coords env2 lat lon
          (get_country_from_coords env1 lat lon s).2).2.cache_stats.cache_misses =
        (get_country_from_coords env1 lat lon s).2.cache_stats.cache_misses + 1 ∧
      (get_country_from_coords env1 lat lon s).1 = none) :=
  second_call_same_key s env1 env2 lat lon lat lon rfl rfl

/-- Witness for C2 with the geocoder available: the second call is a hit
and returns the first call's value. -/
theorem idempotence_amended_witness :
    (get_country_from_coords ⟨true, ProviderResult.located "de", false, 0⟩ 0 0
        (get_country_from_coords ⟨true, ProviderResult.located "de", false, 0⟩
          0 0 initState).2).1 =
      (get_country_from_coords ⟨true, ProviderResult.located "de", false, 0⟩
        0 0 initState).1 ∧
    (get_country_from_coords ⟨true, ProviderResult.located "de", false, 0⟩ 0 0
        (get_country_from_coords ⟨true, ProviderResult.located "de", false, 0⟩
          0 0 initState).2).2.cache_stats.cache_hits =
      (get_country_from_coords ⟨true, ProviderResult.located "de", false, 0⟩
        0 0 initState).2.cache_stats.cache_hits + 1 := by
  have h := idempotence_amended initState
    ⟨true, ProviderResult.located "de", false, 0⟩
    ⟨true, ProviderResult.located "de", false, 0⟩ 0 0
  refine ⟨h.1, ?_⟩
  refine (h.2.2.1 ?_).1
  rcases call_cases ⟨true, ProviderResult.located "de", false, 0⟩ 0 0 initState
    with ⟨v, hv, _⟩ | ⟨_, hg, _⟩ | ⟨v, t, _, _, _, heq⟩
  · simp [initState, cacheLookup] at hv
  · simp [initState, get_reverse_geocoder] at hg
  · rw [heq]
    simp only [cacheStore]
    simp [cacheLookup]

/-- C2 counterexample: on an uncached key with the geocoder unavailable,
the second identical call is counted as a miss (misses go 1 → 2), not as
a cache hit, refuting the claim's "including when the geocoder is
unavailable" clause. -/
theorem idempotence_counterexample :
    (get_country_from_coords ⟨false, ProviderResult.unexpected, false, 0⟩ 0 0
        initState).2.cache_stats.cache_hits = 0 ∧
    (get_country_from_coords ⟨false, ProviderResult.unexpected, false, 0⟩ 0 0
        initState).2.cache_stats.cache_misses = 1 ∧
    (get_country_from_coords ⟨false, ProviderResult.unexpected, false, 0⟩ 0 0
        (get_country_from_coords ⟨false, ProviderResult.unexpected, false, 0⟩
          0 0 initState).2).2.cache_stats.cache_hits = 0 ∧
    (get_country_from_coords ⟨false, ProviderResult.unexpected, false, 0⟩ 0 0
        (get_country_from_coords ⟨false, ProviderResult.unexpected, false, 0⟩
          0 0 initState).2).2.cache_stats.cache_misses = 2 ∧
    (get_country_from_coords ⟨false, ProviderResult.unexpected, false, 0⟩ 0 0
        (get_country_from_coords ⟨false, ProviderResult.unexpected, false, 0⟩
          0 0 initState).2).2.cache_stats.cache_hits ≠
      (get_country_from_coords ⟨false, ProviderResult.unexpected, false, 0⟩
        0 0 initState).2.cache_stats.cache_hits + 1 := by
  decide

/-- C3 (amended): two consecutive calls whose coordinates round to the
same 2-decimal key return the same result and the second issues no
gateway call; the second is served from the cache (a counted hit)
whenever the first call left the key cached, which is always the case
when the geocoder is available. -/
theorem quantization_amended (s : GeoState) (env1 env2 : CallEnv)
    (lat1 lon1 lat2 lon2 : ℚ)
    (hlat : round2 lat2 = round2 lat1) (hlon : round2 lon2 = round2 lon1) :
    (get_country_from_coords env2 lat2 lon2
        (get_country_from_coords env1 lat1 lon1 s).2).1 =
      (get_country_from_coords env1 lat1 lon1 s).1 ∧
    (get_country_from_coords env2 lat2 lon2
        (get_country_from_coords env1 lat1 lon1 s).2).2.cache_stats.api_calls =
      (get_country_from_coords env1 lat1 lon1 s).2.cache_stats.api_calls ∧
    (cacheLookup (get_country_from_coords env1 lat1 lon1 s).2.coordinate_cache
        (round2 lat2, round2 lon2) ≠ none →
      (get_country_from_coords env2 lat2 lon2
          (get_country_from_coords env1 lat1 lon1 s).2).2.cache_stats.cache_hits =
        (get_country_from_coords env1 lat1 lon1 s).2.cache_stats.cache_hits + 1 ∧
      (get_country_from_coords env2 lat2 lon2
          (get_country_from_coords env1 lat1 lon1 s).2).2.cache_stats.cache_misses =
        (get_country_from_coords env1 lat1 lon1 s).2.cache_stats.cache_misses) ∧
    (cacheLookup (get_country_from_coords env1 lat1 lon1 s).2.coordinate_cache
        (round2 lat2, round2 lon2) = none →
      (get_country_from_coords env2 lat2 lon2
          (get_country_from_coords env1 lat1 lon1 s).2).2.cache_stats.cache_hits =
        (get_country_from_coords env1 lat1 lon1 s).2.cache_stats.cache_hits ∧
      (get_country_from_coords env2 lat2 lon2
          (get_country_from_coords env1 lat1 lon1 s).2).2.cache_stats.cache_misses =
        (get_country_from_coords env1 lat1 lon1 s).2.cache_stats.cache_misses + 1 ∧
      (get_country_from_coords env1 lat1 lon1 s).1 = none) :=
  second_call_same_key s env1 env2 lat1 lon1 lat2 lon2 hlat hlon

/-- Witness for C3: (0.001, 0) and (0.002, 0) share the key (0.00, 0.00);
with the geocoder available the second call returns the first call's value
without touching `api_calls`. -/
theorem quantization_amended_witness :
    round2 (2 / 1000) = round2 (1 / 1000) ∧
    (get_country_from_coords ⟨true, ProviderResult.located "de", false, 0⟩
        (2 / 1000) 0
        (get_country_from_coords ⟨true, ProviderResult.located "de", false, 0⟩
          (1 / 1000) 0 initState).2).1 =
      (get_country_from_coords ⟨true, ProviderResult.located "de", false, 0⟩
        (1 / 1000) 0 initState).1 ∧
    (get_country_from_coords ⟨true, ProviderResult.located "de", false, 0⟩
        (2 / 1000) 0
        (get_country_from_coords ⟨true, ProviderResult.located "de", false, 0⟩
          (1 / 1000) 0 initState).2).2.cache_stats.api_calls =
      (get_country_from_coords ⟨true, ProviderResult.located "de", false, 0⟩
        (1 / 1000) 0 initState).2.cache_stats.api_calls := by
  have hlat : round2 (2 / 1000) = round2 (1 / 1000) := by
    norm_num [round2, round_eq]
  have h := quantization_amended initState
    ⟨true, ProviderResult.located "de", false, 0⟩
    ⟨true, ProviderResult.located "de", false, 0⟩
    (1 / 1000) 0 (2 / 1000) 0 hlat rfl
  exact ⟨hlat, h.1, h.2.1⟩

/-- C3 counterexample: with the geocoder unavailable, a later call for the
same key is not served from the cache — it is counted as a second miss —
refuting the claim's "later calls for the same key are served from the
cache". -/
theorem quantization_counterexample :
    round2 (2 / 1000) = round2 (1 / 1000) ∧
    (get_country_from_coords ⟨false, ProviderResult.unexpected, false, 0⟩
        (2 / 1000) 0
        (get_country_from_coords ⟨false, ProviderResult.unexpected, false, 0⟩
          (1 / 1000) 0 initState).2).2.cache_stats.cache_hits = 0 ∧
    (get_country_from_coords ⟨false, ProviderResult.unexpected, false, 0⟩
        (2 / 1000) 0
        (get_country_from_coords ⟨false, ProviderResult.unexpected, false, 0⟩
          (1 / 1000) 0 initState).2).2.cache_stats.cache_misses = 2 ∧
    (get_country_from_coords ⟨false, ProviderResult.unexpected, false, 0⟩
        (2 / 1000) 0
        (get_country_from_coords ⟨false, ProviderResult.unexpected, false, 0⟩
          (1 / 1000) 0 initState).2).1 =
      (get_country_from_coords ⟨false, ProviderResult.unexpected, false, 0⟩
        (1 / 1000) 0 initState).1 := by
  refine ⟨by norm_num [round2, round_eq], ?_, ?_, ?_⟩ <;> decide

/-- C4: for every manual list, history set and resolved current country,
the published visited list is the lexicographically sorted, deduplicated
union of the three, the count is the size of that union, and the names are
the ISO table lookups with the code itself as fallback. -/
theorem merge_correctness (manual history : List String) (current : Option String)
    (hc : current ≠ some "") :
    (async_update (some ⟨manual⟩) history current initSensor).visited_countries =
      some (mergeVisited manual history current) ∧
    (async_update (some ⟨manual⟩) history current initSensor).native_value =
      some (mergeVisited manual history current).length ∧
    (async_update (some ⟨manual⟩) history current initSensor).visited_countries_names =
      some ((mergeVisited manual history current).map isoName) ∧
    (∀ a, a ∈ mergeVisited manual history current ↔
      a ∈ manual ∨ a ∈ history ∨ current = some a) ∧
    (mergeVisited manual history current).Sorted pyLe ∧
    (mergeVisited manual history current).Nodup ∧
    (mergeVisited manual history current).length =
      (manual.toFinset ∪ history.toFinset ∪ current.toList.toFinset).card := by
  refine ⟨rfl, rfl, rfl, mem_mergeVisited manual history current hc,
    sorted_mergeVisited manual history current,
    nodup_mergeVisited manual history current, ?_⟩
  rw [← List.toFinset_card_of_nodup (nodup_mergeVisited manual history current)]
  congr 1
  ext a
  simp [mem_mergeVisited manual history current hc, Option.mem_toList,
    Option.mem_def, or_assoc]

/-- Witness for C4 on the concrete inputs of the claim. -/
theorem merge_correctness_witness :
    mergeVisited ["FR"] ["US"] (some "DE") = ["DE", "FR", "US"] ∧
    (async_update (some ⟨["FR"]⟩) ["US"] (some "DE") initSensor).native_value =
      some 3 ∧
    (async_update (some ⟨["FR"]⟩) ["US"] (some "DE") initSensor).visited_countries_names =
      some ["Germany", "France", "United States"] ∧
    "US" ∈ mergeVisited ["FR"] ["US"] (some "DE") := by
  refine ⟨by decide, by decide, by decide, ?_⟩
  exact ((merge_correctness ["FR"] ["US"] (some "DE") (by decide)).2.2.2.1 "US").mpr
    (Or.inr (Or.inl (by decide)))

end CountriesVisited
